import Mathlib

/-
Verification development for the two-combatant fighting game in `game.py`.

The per-tick control logic of the game (action decoding, reward computation,
attack resolution, projectile handling, history buffers, episode termination
and the episode-to-episode exploration-rate handoff) is shallowly embedded
below.  Python float arithmetic is modelled by exact rationals, Python ints
by `Int`/`Nat`, Python lists by `List`.  Each definition carries a comment
pointing at the lines of `game.py` it embeds.
-/

/-! ## Constants (game.py lines 12-60) -/

/-- `SCREEN_WIDTH = 1000` (game.py:12). -/
def SCREEN_WIDTH : ℚ := 1000

/-- `SCREEN_HEIGHT = 600` (game.py:13). -/
def SCREEN_HEIGHT : ℚ := 600

/-- `BULLET_SPEED = 10` (game.py:46). -/
def BULLET_SPEED : ℚ := 10

/-- `PLAYER_ATTACK_COOLDOWN = 80` (game.py:43). -/
def PLAYER_ATTACK_COOLDOWN : ℤ := 80

/-- `ACTION_SPACE_SIZE = 16` (game.py:57). -/
def ACTION_SPACE_SIZE : ℕ := 16

/-- `PLAYER_MEMORY = 50` (game.py:58). -/
def PLAYER_MEMORY : ℕ := 50

/-- `EPSILON_REDUCE = 0.9` (game.py:60). -/
def EPSILON_REDUCE : ℚ := 9/10

/-! ## Action codec (game.py lines 421-432) -/

/-- Binary digits of `n`, most significant bit first, no leading zeros
(empty for `0`): the digit list produced by Python's `bin(n)[2:]` for a
positive `n`.  Structural recursion is made explicit with a `fuel`
argument that strictly dominates the number of divisions by two. -/
def bin_digits_fuel (fuel : ℕ) (n : ℕ) : List ℕ :=
  match fuel with
  | 0 => []
  | f + 1 => if n = 0 then [] else bin_digits_fuel f (n / 2) ++ [n % 2]

/-- Digits of Python's `bin(n)[2:]` (game.py:422): `bin(0)[2:] = "0"`,
and for positive `n` the binary digits most-significant-bit first. -/
def python_bin (n : ℕ) : List ℕ :=
  if n = 0 then [0] else bin_digits_fuel n n

/-- Python's `str.zfill(4)` on a digit list (game.py:424): left-pad with
zeros to length 4. -/
def zfill4 (l : List ℕ) : List ℕ :=
  List.replicate (4 - l.length) 0 ++ l

/-- `Player.interpret_action` (game.py:421-426): binary representation of
the action index, zero-padded to 4 bits, as a list of bits MSB first. -/
def interpret_action (action : ℕ) : List ℕ :=
  zfill4 (python_bin action)

/-- The four held-input flags of a combatant, as set by
`Player.set_movements` (game.py:428-432). -/
structure Movements where
  left : ℕ
  right : ℕ
  up : ℕ
  attack : ℕ
deriving DecidableEq, Repr

/-- `Player.set_movements` (game.py:428-432): movements[0] drives
`left_pressed`, movements[1] `right_pressed`, movements[2] `up_pressed`,
movements[3] `attack`. -/
def set_movements (movements : List ℕ) : Movements :=
  { left := movements.getD 0 0
    right := movements.getD 1 0
    up := movements.getD 2 0
    attack := movements.getD 3 0 }

/-! ## History buffer (game.py lines 277-283) -/

/-- One append to `Player.memory` (game.py:277-283): when the buffer holds
exactly `PLAYER_MEMORY` entries, the new sample is appended and the oldest
entry dropped (`self.memory.append(state); self.memory = self.memory[1:]`);
otherwise the sample is appended. -/
def mem_append {α : Type} (memory : List α) (state : α) : List α :=
  if memory.length = PLAYER_MEMORY then
    (memory ++ [state]).drop 1
  else
    memory ++ [state]

/-- The buffer obtained from the empty initial `Player.memory`
(game.py:131) by the per-tick appends of `Player.on_update`. -/
def mem_run {α : Type} (states : List α) : List α :=
  states.foldl mem_append []

/-! ## Health / score (game.py lines 115, 218, 260, 738-744) -/

/-- Score after one tick in which the combatant is hit `hits` times:
each melee hit (game.py:218) and each bullet collision (game.py:260)
runs `opponent.score -= 10`.  No clamping is applied in the source. -/
def tick_score (score : ℤ) (hits : ℕ) : ℤ :=
  score - 10 * hits

/-- Score after a run of ticks starting from the initial
`self.score = 100` (game.py:115), hit `hits[i]` times in tick `i`. -/
def run_score (hits : List ℕ) : ℤ :=
  hits.foldl tick_score 100

/-- The episode is still live entering every tick of the run: the
termination check of `GameView.on_update` (game.py:738-744) ends the
episode at the end of the first tick with `score <= 0`, so tick `k`
only executes when the score after ticks `0..k-1` is positive. -/
def episode_live (hits : List ℕ) : Prop :=
  ∀ k < hits.length, 0 < run_score (hits.take k)

instance episode_live_decidable (hits : List ℕ) : Decidable (episode_live hits) :=
  inferInstanceAs (Decidable (∀ k < hits.length, 0 < run_score (hits.take k)))

/-! ## Attack resolution (game.py lines 209-247) -/

/-- One projectile, as configured at spawn in `Player.attempt_attack`
(game.py:220-241): position (`center_x`, `center_y`) and per-tick
velocity (`change_x`, `change_y`). -/
structure Bullet where
  x : ℚ
  y : ℚ
  vx : ℚ
  vy : ℚ
deriving DecidableEq, Repr

/-- Square of the distance computed at game.py:210-213:
`np.sqrt((self.center_x - opp.center_x)**2 + (self.center_x - opp.center_x)**2)`.
Both squared terms use `center_x` (the vertical axis never enters), exactly
as in the source.  The source compares the square root of this value
against 50; `attackDistSq_lt_iff` below shows that test is equivalent to
comparing this square against `50^2 = 2500`. -/
def attackDistSq (self_x opp_x : ℚ) : ℚ :=
  (self_x - opp_x) * (self_x - opp_x) + (self_x - opp_x) * (self_x - opp_x)

/-- Result of `Player.attempt_attack` (game.py:209-247): the opponent's
score, the attacker's `attack_wait`, the `bullet_fired` return value and
the attacker's bullet list after the call. -/
structure AttackResult where
  oppScore : ℤ
  wait : ℤ
  fired : Bool
  bullets : List Bullet
deriving DecidableEq, Repr

/-- `Player.attempt_attack` (game.py:209-247).  When `attack` is held and
`attack_wait == 0`: if the (1-D) distance test passes, the opponent loses
10 score (game.py:218); otherwise a bullet is appended at the attacker's
position with horizontal velocity `±BULLET_SPEED` by facing
(game.py:220-241); in both cases `attack_wait` is set to the configured
cooldown (game.py:243).  Finally `attack_wait = max(0, attack_wait - 1)`
runs unconditionally (game.py:245). -/
def attempt_attack (attack : Bool) (wait cooldown : ℤ) (facing_right : Bool)
    (self_x self_y opp_x : ℚ) (oppScore : ℤ) (bullets : List Bullet) :
    AttackResult :=
  if attack ∧ wait = 0 then
    if attackDistSq self_x opp_x < 2500 then
      { oppScore := oppScore - 10
        wait := max 0 (cooldown - 1)
        fired := false
        bullets := bullets }
    else
      { oppScore := oppScore
        wait := max 0 (cooldown - 1)
        fired := true
        bullets := bullets ++
          [{ x := self_x, y := self_y
             vx := if facing_right then BULLET_SPEED else -BULLET_SPEED
             vy := 0 }] }
  else
    { oppScore := oppScore
      wait := max 0 (wait - 1)
      fired := false
      bullets := bullets }

/-! ## Projectile collision and advancement (game.py lines 250-262) -/

/-- The collision pass of `Player.on_update` (game.py:256-262): every
bullet colliding with the opponent (`hit b = true`) is collected in
`to_remove`, costs the opponent 10 score, and is removed from the list. -/
def collide_bullets (bullets : List Bullet) (hit : Bullet → Bool)
    (oppScore : ℤ) : List Bullet × ℤ :=
  (bullets.filter (fun b => !hit b),
   oppScore - 10 * ((bullets.filter hit).length : ℤ))

/-- `self.bullet_list.update()` (game.py:250) on one bullet: arcade's
`Sprite.update` adds `change_x`/`change_y` to the position. -/
def bullet_update (b : Bullet) : Bullet :=
  { b with x := b.x + b.vx, y := b.y + b.vy }

/-- One tick of a combatant's bullet list inside `Player.on_update`
(game.py:249-262): all bullets advance (game.py:250), `attempt_attack`
may append one freshly spawned bullet (game.py:241, via `spawn`), and
then every bullet colliding with the opponent is removed
(game.py:256-262).  No other operation touches the list: in particular
there is no arena-bounds check anywhere. -/
def tick_bullet_list (hit : Bullet → Bool) (spawn : Option Bullet)
    (bullets : List Bullet) : List Bullet :=
  ((bullets.map bullet_update) ++ spawn.toList).filter (fun b => !hit b)

/-- A run of consecutive ticks of the bullet list, each tick supplying
its collision predicate and optional spawned bullet. -/
def run_bullet_list (ticks : List ((Bullet → Bool) × Option Bullet))
    (bullets : List Bullet) : List Bullet :=
  ticks.foldl (fun acc t => tick_bullet_list t.1 t.2 acc) bullets

/-! ## Feature vector and reward (game.py lines 265-276, 384-401) -/

/-- One entry of `Player.memory`: the 10-element `state` list appended at
game.py:265-276, in order `[left, right, up, attack, bullet_fired,
facing_right, x/SCREEN_WIDTH, y/SCREEN_HEIGHT,
attack_wait/PLAYER_ATTACK_COOLDOWN, score/100]`. -/
structure Feature where
  left : ℚ
  right : ℚ
  up : ℚ
  attack : ℚ
  bullet_fired : ℚ
  facing_right : ℚ
  x_n : ℚ
  y_n : ℚ
  cooldown_n : ℚ
  score_n : ℚ
deriving DecidableEq, Repr

instance : Inhabited Feature := ⟨⟨0, 0, 0, 0, 0, 0, 0, 0, 0, 0⟩⟩

/-- The per-tick cost weight of the reward: the literal `- 0` constant
term of `Player.step` (game.py:398), named `W_step` in the design. -/
def W_step : ℚ := 0

/-- The reward computation of `Player.step` (game.py:384-401).
`selfMem`/`oppMem` are the two history buffers (`memory[-1]` is the last
element, `memory[-2]` the one before); `center_x` is
`self.sprite.center_x`; `selfScore`/`oppScore` are the two current
scores.  Index `[-1]` of a memory entry is its `score_n` field and index
`[-4]` its `x_n` field. -/
def step_reward (selfMem oppMem : List Feature) (center_x : ℚ)
    (selfScore oppScore : ℤ) : ℚ :=
  if selfMem.length < 2 then 0
  else
    100 * ((selfMem.getLastD default).score_n -
           (selfMem.dropLast.getLastD default).score_n)
    - 100 * ((oppMem.getLastD default).score_n -
             (oppMem.dropLast.getLastD default).score_n)
    - 0 * (if (selfMem.getLastD default).x_n -
              (selfMem.dropLast.getLastD default).x_n < 5/10000
           then 1 else 0)
    + 0 * (if (selfMem.getLastD default).x_n -
              (selfMem.dropLast.getLastD default).x_n > 5/10000
           then 1 else 0)
    - 1 * (if center_x / SCREEN_WIDTH > 9/10 ∨ center_x / SCREEN_WIDTH < 1/10
           then 1 else 0)
    - 0
    + 0 * ((selfScore : ℚ) - (oppScore : ℚ))
    + 1000 * (if oppScore = 0 then 1 else 0)

/-! ## Episode termination and episode-to-episode handoff
(game.py lines 435-466, 518-523, 732-750) -/

/-- A combatant-control mode, the `mode` strings of `Player.__init__`
(game.py:73, 136-146) and of the views: `player` is `"Player"`,
`rule_based` is `"Rule based"`, `random` is `"Random"`, `agent` is
`"Agent"`, `agent_load` is `"Agent load"`. -/
inductive Mode where
  | player
  | rule_based
  | random
  | agent
  | agent_load
deriving DecidableEq, Repr

/-- The state of a `GameView` relevant to episode handoff
(game.py:565-571): its exploration rate and the two modes. -/
structure GameViewState where
  epsilon : ℚ
  mode1 : Mode
  mode2 : Mode
deriving DecidableEq, Repr

/-- The state of a `GameMenuView` (game.py:469-487): the two stored modes.
The menu holds no exploration rate at all. -/
structure GameMenuViewState where
  mode1 : Mode
  mode2 : Mode
deriving DecidableEq, Repr

/-- The termination check of `GameView.on_update` (game.py:738-744),
evaluated after both players' updates and the physics step: true exactly
when a score is `<= 0`, `player1.step_counter > 10_000`, or a
`center_y < 0`.  (Both step counters start at 0 and are incremented once
per tick, so `player1.step_counter` always equals `player2`'s.) -/
def episode_over (score1 score2 : ℤ) (step_counter : ℕ) (y1 y2 : ℚ) : Bool :=
  decide (score1 ≤ 0) || decide (score2 ≤ 0) ||
  decide (10000 < step_counter) || decide (y1 < 0) || decide (y2 < 0)

/-- The view transition taken by `GameView.on_update` when the
termination check fires (game.py:745-750): a `GameMenuView` is shown,
constructed from the two modes only — the current exploration rate is
not passed along. -/
def gameView_on_termination (g : GameViewState) : GameMenuViewState :=
  { mode1 := g.mode1, mode2 := g.mode2 }

/-- The game started by `GameMenuView.on_update` once both players have
decided (game.py:518-523): `GameView(epsilon=0, mode1=..., mode2=...)`
with the modes recomputed from the current toggles (the menu's stored
modes are ignored). -/
def gameMenuView_start (p1_select p2_select : Bool) : GameViewState :=
  { epsilon := 0
    mode1 := if p1_select then Mode.player else Mode.rule_based
    mode2 := if p2_select then Mode.player else Mode.rule_based }

/-- The `GameView` reached from a terminated episode of `g`: through the
menu (`gameView_on_termination`, which drops the exploration rate) and
the menu's game start with the then-current toggles. -/
def next_episode_view (g : GameViewState) (p1_select p2_select : Bool) :
    GameViewState :=
  let _menu := gameView_on_termination g
  gameMenuView_start p1_select p2_select

/-- The restart performed by `GameOverView` (game.py:450, 464):
`GameView(epsilon=self.epsilon * EPSILON_REDUCE)`.  `GameOverView` is
never instantiated anywhere in `game.py`; the live termination path of
`GameView.on_update` goes through `GameMenuView` instead. -/
def gameOverView_restart_epsilon (epsilon : ℚ) : ℚ :=
  epsilon * EPSILON_REDUCE

/-! ## Theorems -/

/-- Claim C3: for every action index in `[0, 16)`, decoding yields exactly
the 4-bit MSB-first binary representation of the index, assigned in order
as (left, right, up, attack); e.g. index 5 decodes to 0101, i.e. left=0,
right=1, up=0, attack=1. -/
theorem c3_action_decode (a : ℕ) (h : a < 16) :
    interpret_action a = [a / 8 % 2, a / 4 % 2, a / 2 % 2, a % 2] ∧
    set_movements (interpret_action a) =
      { left := a / 8 % 2, right := a / 4 % 2, up := a / 2 % 2,
        attack := a % 2 } := by
  interval_cases a <;> exact ⟨rfl, rfl⟩

/-- Witness for C3 at index 5: decode gives 0101, so left=0, right=1,
up=0, attack=1. -/
theorem c3_action_decode_witness :
    interpret_action 5 = [0, 1, 0, 1] ∧
    set_movements (interpret_action 5) =
      { left := 0, right := 1, up := 0, attack := 1 } :=
  c3_action_decode 5 (by decide)

/-- Appending one more sample commutes with `mem_run` in the expected way. -/
lemma mem_run_concat {α : Type} (states : List α) (s : α) :
    mem_run (states ++ [s]) = mem_append (mem_run states) s := by
  simp [mem_run, List.foldl_append]

/-- The buffer after any sequence of appends is exactly the suffix of the
appended samples of length at most `PLAYER_MEMORY`. -/
lemma mem_run_eq_drop {α : Type} (states : List α) :
    mem_run states = states.drop (states.length - PLAYER_MEMORY) := by
  induction states using List.reverseRecOn with
  | nil => rfl
  | append_singleton l s ih =>
    rw [mem_run_concat, ih, mem_append]
    have hlen : (l.drop (l.length - PLAYER_MEMORY)).length
        = l.length - (l.length - PLAYER_MEMORY) := List.length_drop _ _
    have hPM : PLAYER_MEMORY = 50 := rfl
    by_cases h : PLAYER_MEMORY ≤ l.length
    · have hcond : (l.drop (l.length - PLAYER_MEMORY)).length = PLAYER_MEMORY := by
        rw [hlen]; omega
      rw [if_pos hcond]
      have h1 : (1 : ℕ) ≤ (l.drop (l.length - PLAYER_MEMORY)).length := by
        rw [hcond]; omega
      rw [List.drop_append_of_le_length h1, List.drop_drop]
      have h2 : l.length + 1 - PLAYER_MEMORY ≤ l.length := by omega
      rw [List.drop_append_of_le_length (by simpa using h2)]
      have h4 : l.length - PLAYER_MEMORY + 1 = l.length + 1 - PLAYER_MEMORY := by
        omega
      rw [h4]
      simp
    · have hcond : ¬ (l.drop (l.length - PLAYER_MEMORY)).length = PLAYER_MEMORY := by
        rw [hlen]; omega
      rw [if_neg hcond]
      have h0 : l.length - PLAYER_MEMORY = 0 := by omega
      have h0' : l.length + 1 - PLAYER_MEMORY = 0 := by omega
      simp [h0, h0']

/-- Claim C5: the history buffer never exceeds `PLAYER_MEMORY` entries,
and after any sequence of appends it holds exactly the most recent
`PLAYER_MEMORY` appended samples in their original insertion order
(strict FIFO eviction once at capacity): the buffer is precisely the
suffix `states.drop (states.length - PLAYER_MEMORY)`. -/
theorem c5_history_buffer {α : Type} (states : List α) :
    (mem_run states).length ≤ PLAYER_MEMORY ∧
    mem_run states = states.drop (states.length - PLAYER_MEMORY) := by
  refine ⟨?_, mem_run_eq_drop states⟩
  rw [mem_run_eq_drop states, List.length_drop]
  omega

/-- Closed-form value of the score after a run of ticks. -/
lemma run_score_eq (hits : List ℕ) :
    run_score hits = 100 - 10 * (hits.sum : ℤ) := by
  suffices h : ∀ (l : List ℕ) (s : ℤ), l.foldl tick_score s = s - 10 * (l.sum : ℤ) by
    simpa [run_score] using h hits 100
  intro l
  induction l with
  | nil => intro s; simp
  | cons a t ih =>
    intro s
    rw [List.foldl_cons, ih, tick_score, List.sum_cons, Nat.cast_add]
    ring

/-- Counterexample to claim C4 as stated: with one hit per tick for nine
ticks and then two hits (melee plus one bullet) in the tenth tick, every
tick starts with a positive score, yet the score after the run is `-10`,
strictly below the claimed lower bound 0. -/
theorem c4_health_counterexample :
    episode_live [1, 1, 1, 1, 1, 1, 1, 1, 1, 2] ∧
    run_score [1, 1, 1, 1, 1, 1, 1, 1, 1, 2] = -10 ∧
    ¬ (0 ≤ run_score [1, 1, 1, 1, 1, 1, 1, 1, 1, 2]) := by
  refine ⟨?_, ?_, ?_⟩ <;> decide

/-- Claim C4, amended: health starts at 100 and loses exactly 10 per hit,
so it never exceeds 100 and equals `100 - 10 * (total hits)`; it stays
at or above 0 through a live episode provided each tick lands at most
one hit, but multiple hits in one tick can drive it below 0. -/
theorem c4_health_amended (hits : List ℕ) :
    run_score hits = 100 - 10 * (hits.sum : ℤ) ∧
    run_score hits ≤ 100 ∧
    ((∀ h ∈ hits, h ≤ 1) → episode_live hits → 0 ≤ run_score hits) := by
  refine ⟨run_score_eq hits, ?_, ?_⟩
  · rw [run_score_eq]
    have h0 : (0 : ℤ) ≤ (hits.sum : ℤ) := Int.natCast_nonneg _
    omega
  · intro hle hlive
    rcases hits.eq_nil_or_concat with h | ⟨L, b, rfl⟩
    · subst h; decide
    · have hb : b ≤ 1 := hle b (by simp)
      have hL : 0 < run_score L := by
        have h1 := hlive L.length (by simp [List.concat_eq_append])
        simpa [List.concat_eq_append, List.take_left] using h1
      rw [run_score_eq] at hL ⊢
      rw [List.concat_eq_append, List.sum_append]
      have hsb : (([b].sum : ℕ) : ℤ) = (b : ℤ) := by simp
      rw [Nat.cast_add, hsb]
      omega

/-- Witness for the amended C4: a live two-tick run with at most one hit
per tick ends with a nonnegative score. -/
theorem c4_health_witness : 0 ≤ run_score [1, 1] :=
  (c4_health_amended [1, 1]).2.2 (by decide) (by decide)

/-- The test actually written in the source, `sqrt(dx^2 + dx^2) < 50`
(game.py:210-217), is equivalent to the rational comparison
`attackDistSq < 2500` used in the embedding of `attempt_attack`. -/
lemma attackDistSq_lt_iff (self_x opp_x : ℚ) :
    Real.sqrt ((attackDistSq self_x opp_x : ℚ) : ℝ) < 50 ↔
    attackDistSq self_x opp_x < 2500 := by
  have h50 : (0 : ℝ) < 50 := by norm_num
  rw [Real.sqrt_lt' h50]
  constructor
  · intro h
    have h' : ((attackDistSq self_x opp_x : ℚ) : ℝ) < ((2500 : ℚ) : ℝ) := by
      push_cast
      norm_num at h ⊢
      exact h
    exact_mod_cast h'
  · intro h
    have h' : ((attackDistSq self_x opp_x : ℚ) : ℝ) < ((2500 : ℚ) : ℝ) := by
      exact_mod_cast h
    calc ((attackDistSq self_x opp_x : ℚ) : ℝ) < ((2500 : ℚ) : ℝ) := h'
      _ = 50 ^ 2 := by norm_num

/-- Counterexample to claim C6 as stated: on a successful attack tick
(attack held, counter 0, default cooldown 80) the counter ends the tick
at 79, not at the configured duration 80, because the unconditional
`max(0, attack_wait - 1)` at game.py:245 runs after the reset at
game.py:243. -/
theorem c6_cooldown_counterexample :
    (attempt_attack true 0 PLAYER_ATTACK_COOLDOWN true 0 0 500 100 []).wait = 79 ∧
    (79 : ℤ) ≠ PLAYER_ATTACK_COOLDOWN := by
  constructor
  · unfold attempt_attack
    rw [if_pos ⟨rfl, rfl⟩, if_neg (by norm_num [attackDistSq])]
    show max 0 (PLAYER_ATTACK_COOLDOWN - 1) = 79
    norm_num [PLAYER_ATTACK_COOLDOWN]
  · norm_num [PLAYER_ATTACK_COOLDOWN]

/-- Claim C6, amended: after every tick the cooldown counter is `≥ 0`;
when it is positive it decreases by exactly 1 (no attack can fire then);
and on a tick in which an attack fires (attack held with counter 0) the
counter is set to the configured cooldown and then the same tick's
decrement applies, so it ends the tick at `max 0 (cooldown - 1)`. -/
theorem c6_cooldown_amended (attack : Bool) (wait cooldown : ℤ)
    (facing_right : Bool) (self_x self_y opp_x : ℚ) (oppScore : ℤ)
    (bullets : List Bullet) :
    0 ≤ (attempt_attack attack wait cooldown facing_right self_x self_y opp_x
          oppScore bullets).wait ∧
    (0 < wait →
      (attempt_attack attack wait cooldown facing_right self_x self_y opp_x
        oppScore bullets).wait = wait - 1) ∧
    (attack = true ∧ wait = 0 →
      (attempt_attack attack wait cooldown facing_right self_x self_y opp_x
        oppScore bullets).wait = max 0 (cooldown - 1)) := by
  refine ⟨?_, ?_, ?_⟩
  · unfold attempt_attack
    split_ifs <;> exact le_max_left 0 _
  · intro hw
    unfold attempt_attack
    rw [if_neg (fun hc => absurd hc.2 (by omega))]
    show max 0 (wait - 1) = wait - 1
    rw [max_eq_right (by omega : (0 : ℤ) ≤ wait - 1)]
  · rintro ⟨ha, hw⟩
    subst ha
    subst hw
    unfold attempt_attack
    rw [if_pos ⟨rfl, rfl⟩]
    split_ifs <;> rfl

/-- Witness for the amended C6 on a successful attack tick with the
default cooldown. -/
theorem c6_cooldown_witness :
    (attempt_attack true 0 PLAYER_ATTACK_COOLDOWN true 0 0 500 100 []).wait
      = max 0 (PLAYER_ATTACK_COOLDOWN - 1) :=
  (c6_cooldown_amended true 0 PLAYER_ATTACK_COOLDOWN true 0 0 500 100 []).2.2
    ⟨rfl, rfl⟩

/-- Claim C7: when attack is held with cooldown counter 0 and the defined
distance metric (both axis terms built from `center_x`) is below the
melee radius, the opponent loses exactly 10 health, no projectile is
spawned, and the attacker's cooldown is reset (ending the tick at
`max 0 (cooldown - 1)` after the unconditional decrement).  The result
is the same for every vertical position `self_y`, and the opponent's
vertical position does not enter `attempt_attack` at all: the
melee/ranged choice is independent of vertical separation. -/
theorem c7_melee_attack (cooldown : ℤ) (facing_right : Bool)
    (self_x self_y opp_x : ℚ) (oppScore : ℤ) (bullets : List Bullet)
    (h : attackDistSq self_x opp_x < 2500) :
    attempt_attack true 0 cooldown facing_right self_x self_y opp_x oppScore
        bullets =
      { oppScore := oppScore - 10
        wait := max 0 (cooldown - 1)
        fired := false
        bullets := bullets } := by
  unfold attempt_attack
  rw [if_pos ⟨rfl, rfl⟩, if_pos h]

/-- Two combatants at the same `center_x` are within the melee radius. -/
lemma attackDistSq_zero_lt : attackDistSq 0 0 < 2500 := by
  norm_num [attackDistSq]

/-- Witness for C7: both combatants at the same `center_x`, distance 0,
melee hit lands for 10 damage with no bullet spawned. -/
theorem c7_melee_attack_witness :
    attackDistSq 0 0 < 2500 ∧
    attempt_attack true 0 PLAYER_ATTACK_COOLDOWN true 0 300 0 100 [] =
      { oppScore := 100 - 10
        wait := max 0 (PLAYER_ATTACK_COOLDOWN - 1)
        fired := false
        bullets := [] } :=
  ⟨attackDistSq_zero_lt,
   c7_melee_attack PLAYER_ATTACK_COOLDOWN true 0 300 0 100 [] attackDistSq_zero_lt⟩

/-- Claim C8: a ranged attack fired while facing right spawns a bullet
with x-velocity `+BULLET_SPEED` (and `-BULLET_SPEED` facing left, with
y-velocity 0); and in the collision pass every colliding bullet costs
the opponent exactly 10 health and is removed from the owner's list, so
a second pass with the same collision predicate removes nothing and
deals no further damage (the hit lands exactly once even if the overlap
would persist). -/
theorem c8_ranged_attack :
    (∀ (cooldown : ℤ) (self_x self_y opp_x : ℚ) (oppScore : ℤ)
       (bullets : List Bullet),
      ¬ attackDistSq self_x opp_x < 2500 →
      attempt_attack true 0 cooldown true self_x self_y opp_x oppScore bullets =
        { oppScore := oppScore, wait := max 0 (cooldown - 1), fired := true,
          bullets := bullets ++
            [{ x := self_x, y := self_y, vx := BULLET_SPEED, vy := 0 }] } ∧
      attempt_attack true 0 cooldown false self_x self_y opp_x oppScore bullets =
        { oppScore := oppScore, wait := max 0 (cooldown - 1), fired := true,
          bullets := bullets ++
            [{ x := self_x, y := self_y, vx := -BULLET_SPEED, vy := 0 }] }) ∧
    (∀ (bullets : List Bullet) (hit : Bullet → Bool) (oppScore : ℤ),
      (collide_bullets bullets hit oppScore).2 =
        oppScore - 10 * ((bullets.filter hit).length : ℤ) ∧
      (∀ b ∈ (collide_bullets bullets hit oppScore).1, hit b = false) ∧
      collide_bullets (collide_bullets bullets hit oppScore).1 hit
          (collide_bullets bullets hit oppScore).2 =
        ((collide_bullets bullets hit oppScore).1,
         (collide_bullets bullets hit oppScore).2)) := by
  constructor
  · intro cooldown self_x self_y opp_x oppScore bullets h
    constructor <;>
      · unfold attempt_attack
        rw [if_pos ⟨rfl, rfl⟩, if_neg h]
        rfl
  · intro bullets hit oppScore
    refine ⟨rfl, ?_, ?_⟩
    · intro b hb
      simp only [collide_bullets, List.mem_filter, Bool.not_eq_true'] at hb
      exact hb.2
    · simp only [collide_bullets, Prod.mk.injEq]
      constructor
      · rw [List.filter_filter]
        simp
      · have hnil : (bullets.filter (fun b => !hit b)).filter hit = [] := by
          rw [List.filter_filter]
          simp [List.filter_eq_nil_iff]
        rw [hnil]
        simp

/-- The two combatants 100 apart fail the melee-radius test. -/
lemma attackDistSq_far : ¬ attackDistSq 100 0 < 2500 := by
  norm_num [attackDistSq]

/-- Witness for C8: a right-facing ranged attack from `center_x = 100`
spawns a bullet with x-velocity `+BULLET_SPEED`. -/
theorem c8_ranged_attack_witness :
    attempt_attack true 0 PLAYER_ATTACK_COOLDOWN true 100 50 0 100 [] =
      { oppScore := 100, wait := max 0 (PLAYER_ATTACK_COOLDOWN - 1),
        fired := true,
        bullets := [{ x := 100, y := 50, vx := BULLET_SPEED, vy := 0 }] } :=
  (c8_ranged_attack.1 PLAYER_ATTACK_COOLDOWN 100 50 0 100 [] attackDistSq_far).1

/-- A feature sample with normalized health 1 and normalized x `1/2`,
used as a concrete history entry. -/
def constFeature : Feature :=
  { left := 0, right := 0, up := 0, attack := 0, bullet_fired := 0,
    facing_right := 0, x_n := 1/2, y_n := 0, cooldown_n := 0, score_n := 1 }

/-- Counterexample to claim C2 as stated: with both histories of length 2,
both combatants' normalized health constant, and the combatant standing
at `center_x = 950` (normalized 0.95, outside `[0.1, 0.9]`), the reward
is `-1`, not `-W_step = 0`: the edge-position term is not independent of
position. -/
theorem c2_reward_counterexample :
    step_reward [constFeature, constFeature] [constFeature, constFeature]
        950 100 100 = -1 ∧
    (-1 : ℚ) ≠ -W_step := by
  constructor
  · norm_num [step_reward, constFeature, SCREEN_WIDTH]
  · norm_num [W_step]

/-- Claim C2, amended: for histories of length at least 2 with both
combatants' normalized health constant across the last two samples, the
reward equals exactly `-W_step` (which the source fixes at 0) provided
additionally the combatant's normalized x lies inside `[0.1, 0.9]` and
the opponent's score is nonzero; at an edge position the reward gains an
extra `-1`, and at opponent score 0 an extra `+1000`. -/
theorem c2_reward_amended (selfMem oppMem : List Feature) (center_x : ℚ)
    (selfScore oppScore : ℤ)
    (hlen : 2 ≤ selfMem.length)
    (hself : (selfMem.getLastD default).score_n =
      (selfMem.dropLast.getLastD default).score_n)
    (hopp : (oppMem.getLastD default).score_n =
      (oppMem.dropLast.getLastD default).score_n)
    (hpos : ¬ (center_x / SCREEN_WIDTH > 9/10 ∨ center_x / SCREEN_WIDTH < 1/10))
    (hscore : oppScore ≠ 0) :
    step_reward selfMem oppMem center_x selfScore oppScore = -W_step := by
  unfold step_reward
  rw [if_neg (by omega), hself, hopp, if_neg hpos, if_neg hscore]
  simp [W_step]

/-- The centre of the arena is not an edge position. -/
lemma center_not_edge :
    ¬ ((500 : ℚ) / SCREEN_WIDTH > 9/10 ∨ (500 : ℚ) / SCREEN_WIDTH < 1/10) := by
  norm_num [SCREEN_WIDTH]

/-- Witness for the amended C2: constant healths, centre position,
opponent score 100; the reward for the tick is `-W_step`. -/
theorem c2_reward_witness :
    step_reward [constFeature, constFeature] [constFeature, constFeature]
      500 100 100 = -W_step :=
  c2_reward_amended [constFeature, constFeature] [constFeature, constFeature]
    500 100 100 (by simp) rfl rfl center_not_edge (by decide)

/-- Counterexample to claim C1 as stated: starting an episode with
exploration rate 1, the episode reached after a termination carries
exploration rate 0, not `1 * EPSILON_REDUCE = 0.9` — the live
termination path (`GameView.on_update` to `GameMenuView` to
`GameView(epsilon=0, ...)`, game.py:745-750 and 518-523) hard-codes 0,
and the decaying restart exists only in the never-instantiated
`GameOverView`. -/
theorem c1_epsilon_counterexample :
    (next_episode_view
      { epsilon := 1, mode1 := Mode.agent, mode2 := Mode.player }
      true true).epsilon = 0 ∧
    (0 : ℚ) ≠ 1 * EPSILON_REDUCE := by
  constructor
  · rfl
  · norm_num [EPSILON_REDUCE]

/-- Claim C1, amended: after every episode termination the next episode
(reached through the menu) starts with exploration rate exactly 0,
whatever the previous rate and menu toggles were; in particular the rate
never increases across a termination as long as the previous rate was
nonnegative, but it does not follow the decay law
`initial_rate * EPSILON_REDUCE^N` (that law lives only in the unused
`GameOverView` restart, `gameOverView_restart_epsilon`). -/
theorem c1_epsilon_amended (g : GameViewState) (p1_select p2_select : Bool) :
    (next_episode_view g p1_select p2_select).epsilon = 0 ∧
    (0 ≤ g.epsilon →
      (next_episode_view g p1_select p2_select).epsilon ≤ g.epsilon) ∧
    gameOverView_restart_epsilon g.epsilon = g.epsilon * EPSILON_REDUCE := by
  exact ⟨rfl, fun h => h, rfl⟩

/-- Witness for the amended C1 at a concrete previous rate of 1. -/
theorem c1_epsilon_witness :
    (next_episode_view
      { epsilon := 1, mode1 := Mode.agent, mode2 := Mode.player }
      true true).epsilon ≤ 1 :=
  (c1_epsilon_amended
    { epsilon := 1, mode1 := Mode.agent, mode2 := Mode.player }
    true true).2.1 (by norm_num)

/-- Claim C9: the episode terminates at the end of a tick (the check runs
after both players' `on_update` calls and the physics step) exactly when
a combatant's health has reached 0 (the source tests `score <= 0`, which
also catches health jumping below 0 under multiple same-tick hits), the
tick-count ceiling has been reached (`step_counter > 10_000`), or a
combatant's vertical position is below the arena floor (`center_y < 0`). -/
theorem c9_termination_iff (score1 score2 : ℤ) (step_counter : ℕ)
    (y1 y2 : ℚ) :
    episode_over score1 score2 step_counter y1 y2 = true ↔
      ((score1 ≤ 0 ∨ score2 ≤ 0) ∨ 10000 < step_counter ∨
        (y1 < 0 ∨ y2 < 0)) := by
  simp [episode_over, or_assoc]

/-- A bullet that the per-tick collision predicate misses survives the
tick (advanced by its velocity). -/
lemma tick_bullet_list_mem (hit : Bullet → Bool) (spawn : Option Bullet)
    (bullets : List Bullet) (b : Bullet) (hb : b ∈ bullets)
    (hmiss : hit (bullet_update b) = false) :
    bullet_update b ∈ tick_bullet_list hit spawn bullets := by
  unfold tick_bullet_list
  rw [List.mem_filter]
  constructor
  · exact List.mem_append_left _ (List.mem_map_of_mem bullet_update hb)
  · simp [hmiss]

/-- A bullet survives a whole run of ticks whose collision predicates
never fire, advanced once per tick. -/
lemma run_bullet_list_mem (ticks : List ((Bullet → Bool) × Option Bullet)) :
    ∀ (bullets : List Bullet) (b : Bullet), b ∈ bullets →
      (∀ t ∈ ticks, ∀ x, t.1 x = false) →
      bullet_update^[ticks.length] b ∈ run_bullet_list ticks bullets := by
  induction ticks with
  | nil =>
    intro bullets b hb _
    simpa [run_bullet_list] using hb
  | cons t ts ih =>
    intro bullets b hb hfalse
    have h1 : bullet_update b ∈ tick_bullet_list t.1 t.2 bullets :=
      tick_bullet_list_mem t.1 t.2 bullets b hb
        (hfalse t (List.mem_cons_self t ts) (bullet_update b))
    have h2 : ∀ t' ∈ ts, ∀ x, t'.1 x = false :=
      fun t' ht' => hfalse t' (List.mem_cons_of_mem t ht')
    have h3 := ih (tick_bullet_list t.1 t.2 bullets) (bullet_update b) h1 h2
    rw [List.length_cons, Function.iterate_succ_apply]
    exact h3

/-- Length of the bullet list after `n` missing shots with no collisions. -/
lemma run_bullet_list_replicate (b₀ : Bullet) :
    ∀ (n : ℕ) (bullets : List Bullet),
      (run_bullet_list (List.replicate n (fun _ => false, some b₀))
        bullets).length = bullets.length + n := by
  intro n
  induction n with
  | zero => intro bullets; simp [run_bullet_list]
  | succ k ih =>
    intro bullets
    rw [List.replicate_succ]
    have hstep : run_bullet_list
        ((fun _ => false, some b₀) :: List.replicate k (fun _ => false, some b₀))
        bullets =
        run_bullet_list (List.replicate k (fun _ => false, some b₀))
          (tick_bullet_list (fun _ => false) (some b₀) bullets) := rfl
    rw [hstep, ih]
    have htick : (tick_bullet_list (fun _ => false) (some b₀) bullets).length
        = bullets.length + 1 := by
      simp [tick_bullet_list]
    rw [htick]
    omega

/-- Claim C10: the only event that removes a projectile from its owner's
list is a collision with the opposing combatant (a surviving bullet is
exactly one the collision predicate misses); a projectile that is never
hit stays in the list, advanced each tick, for the rest of the episode
regardless of its position (there is no out-of-bounds removal); and the
list grows without bound as shots miss: after `n` ticks that each spawn
one bullet with no collisions, the list holds `n` bullets. -/
theorem c10_projectile_persistence :
    (∀ (hit : Bullet → Bool) (spawn : Option Bullet) (bullets : List Bullet)
       (b : Bullet), b ∈ bullets → hit (bullet_update b) = false →
       bullet_update b ∈ tick_bullet_list hit spawn bullets) ∧
    (∀ (ticks : List ((Bullet → Bool) × Option Bullet))
       (bullets : List Bullet) (b : Bullet), b ∈ bullets →
       (∀ t ∈ ticks, ∀ x, t.1 x = false) →
       bullet_update^[ticks.length] b ∈ run_bullet_list ticks bullets) ∧
    (∀ (n : ℕ) (b₀ : Bullet),
       (run_bullet_list (List.replicate n (fun _ => false, some b₀))
         []).length = n) :=
  ⟨tick_bullet_list_mem,
   fun ticks => run_bullet_list_mem ticks,
   fun n b₀ => by rw [run_bullet_list_replicate b₀ n []]; simp⟩

/-- Witness for C10: three missed shots leave three bullets in the list. -/
theorem c10_projectile_witness :
    (run_bullet_list
      (List.replicate 3 (fun _ => false,
        some { x := 0, y := 0, vx := BULLET_SPEED, vy := 0 }))
      []).length = 3 :=
  c10_projectile_persistence.2.2 3 { x := 0, y := 0, vx := BULLET_SPEED, vy := 0 }
